import Mathlib

/-!
Verification of `kmsgrab.c` (KMS/DRM screenshot tool).

The C source is shallowly embedded below.  Pure pixel-conversion helpers
become Lean functions on `Nat` (machine integers are modelled as `Nat`
with explicit `% 2 ^ 32` where 32-bit overflow matters).  The stateful
parts (`main`, `save_png`, the device-probing loop) become functions over
an oracle environment `Env` describing the outcomes of the system and
driver calls; they return an exit value together with a trace of
externally visible events.  A `none` result models undefined behaviour
(dereferencing a null result of `drmModeGetPlane`).
-/

namespace Kmsgrab

/-- Model of `uint24_t`: three 8-bit channels (source lines 23–25). -/
structure uint24 where
  r : Nat
  g : Nat
  b : Nat
deriving DecidableEq, Repr

/-- Source lines 27–36, `rgb16_to_24`:
`pixel.b = (px & 0x1f) << 3; pixel.g = (px & 0x7e0) >> 3; pixel.r = (px & 0xf800) >> 8;`.
Each result fits in `uint8_t`, so the stores do not truncate. -/
def rgb16_to_24 (px : Nat) : uint24 :=
  { b := (px &&& 0x1f) <<< 3
  , g := (px &&& 0x7e0) >>> 3
  , r := (px &&& 0xf800) >>> 8 }

/-- Source lines 39–48, `rgb32_to_24`:
`pixel.b = px & 0xff; pixel.g = (px >> 8) & 0xff; pixel.r = (px >> 16) & 0xff;`. -/
def rgb32_to_24 (px : Nat) : uint24 :=
  { b := px &&& 0xff
  , g := (px >>> 8) &&& 0xff
  , r := (px >>> 16) &&& 0xff }

/-- A 16-bit pixel rebuilt from 5-bit blue, 6-bit green and 5-bit red fields
(blue in bits 0–4, green in bits 5–10, red in bits 11–15). -/
def pack16 (b5 g6 r5 : Nat) : Nat :=
  b5 + g6 * 32 + r5 * 2048

/-- Masking with a contiguous run of bits extracts the corresponding field. -/
theorem and_shifted_mask (px lo wid : Nat) :
    px &&& ((2 ^ wid - 1) <<< lo) = ((px >>> lo) % 2 ^ wid) <<< lo := by
  apply Nat.eq_of_testBit_eq
  intro i
  simp only [Nat.testBit_and, Nat.testBit_shiftLeft, Nat.testBit_mod_two_pow,
    Nat.testBit_shiftRight, Nat.testBit_two_pow_sub_one]
  by_cases h : lo ≤ i
  · have hlo : lo + (i - lo) = i := by omega
    simp only [ge_iff_le, h, decide_True, Bool.true_and, hlo]
    cases hb : px.testBit i <;> simp
  · simp [ge_iff_le, h]

/-- Arithmetic form of `rgb16_to_24`. -/
theorem rgb16_to_24_arith (px : Nat) :
    rgb16_to_24 px = ⟨px / 2048 % 32 * 8, px / 32 % 64 * 4, px % 32 * 8⟩ := by
  have h1f : (0x1f : Nat) = (2 ^ 5 - 1) <<< 0 := by decide
  have h7e0 : (0x7e0 : Nat) = (2 ^ 6 - 1) <<< 5 := by decide
  have hf8 : (0xf800 : Nat) = (2 ^ 5 - 1) <<< 11 := by decide
  unfold rgb16_to_24
  rw [h1f, h7e0, hf8, and_shifted_mask, and_shifted_mask, and_shifted_mask]
  simp only [Nat.shiftLeft_eq, Nat.shiftRight_eq_div_pow, uint24.mk.injEq]
  norm_num
  omega

/-- Arithmetic form of `rgb32_to_24`. -/
theorem rgb32_to_24_arith (px : Nat) :
    rgb32_to_24 px = ⟨px / 65536 % 256, px / 256 % 256, px % 256⟩ := by
  have hff : (0xff : Nat) = (2 ^ 8 - 1) <<< 0 := by decide
  unfold rgb32_to_24
  rw [hff, and_shifted_mask, and_shifted_mask, and_shifted_mask]
  simp only [Nat.shiftLeft_eq, Nat.shiftRight_eq_div_pow, uint24.mk.injEq]
  norm_num

/-- C7: channel extraction of `rgb16_to_24` is as stated; the blue channel's low
3 bits and the green channel's low 2 bits are always 0; and re-quantizing the
channels back to 5/6/5 bits and converting forward reproduces the channels
exactly (their high bits carry all the information). -/
theorem C7_rgb16_channels (px : Nat) :
    (rgb16_to_24 px).b = (px &&& 0x1f) <<< 3 ∧
    (rgb16_to_24 px).g = (px &&& 0x7e0) >>> 3 ∧
    (rgb16_to_24 px).r = (px &&& 0xf800) >>> 8 ∧
    (rgb16_to_24 px).b % 8 = 0 ∧
    (rgb16_to_24 px).g % 4 = 0 ∧
    rgb16_to_24 (pack16 ((rgb16_to_24 px).b >>> 3) ((rgb16_to_24 px).g >>> 2)
      ((rgb16_to_24 px).r >>> 3)) = rgb16_to_24 px := by
  refine ⟨rfl, rfl, rfl, ?_, ?_, ?_⟩
  · rw [rgb16_to_24_arith]; dsimp only; omega
  · rw [rgb16_to_24_arith]; dsimp only; omega
  · rw [rgb16_to_24_arith px]
    dsimp only
    rw [rgb16_to_24_arith]
    simp only [pack16, Nat.shiftRight_eq_div_pow, uint24.mk.injEq]
    norm_num
    omega

/-- Model of `drmModeFB`: the legacy framebuffer description read by `convert_to_24`. -/
structure FB where
  width : Nat
  height : Nat
  bpp : Nat

/-- Source lines 51–64, `convert_to_24`: `len = fb->width * fb->height` is
computed in 32-bit unsigned arithmetic; the mapped memory is read as 16-bit
pixels when `fb->bpp == 16` and as 32-bit pixels for every other depth.
Memory is modelled as the sequence `src` of source pixel words. -/
def convert_to_24 (fb : FB) (src : Nat → Nat) : List uint24 :=
  let len := fb.width * fb.height % 2 ^ 32
  if fb.bpp = 16 then (List.range len).map (fun i => rgb16_to_24 (src i))
  else (List.range len).map (fun i => rgb32_to_24 (src i))

/-! The stateful part: `save_png`, plane enumeration, device locator, `main`.

System and driver calls are modelled by an oracle environment `Env`.
Executions produce a list of externally visible events (`Ev`).  File
descriptors returned by `open` are modelled as tokens drawn from a
counter so that distinct successful opens yield distinct descriptors. -/

/-- Model of `drmModeFB2`: the extended framebuffer query result.  Only the fields
`save_png` reads are modelled. -/
structure FB2 where
  width : Nat
  height : Nat
  pitches : Fin 4 → Nat
  handles : Fin 4 → Nat

/-- Externally visible events of a run. -/
inductive Ev where
  /-- Event: `open("/dev/dri/card<card>")` succeeded, returning descriptor `fd`. -/
  | openDev (card fd : Nat)
  /-- Event: `close(fd)` of a device descriptor. -/
  | closeFd (fd : Nat)
  /-- Event: `fopen` of the output file succeeded for display-plane index `i`. -/
  | fileOpen (i : Nat)
  /-- Event: `fclose` of the output file for display-plane index `i`. -/
  | fileClose (i : Nat)
  /-- Event: `drmModeGetPlane` was called on plane id `id`. -/
  | planeQuery (id : Nat)
  /-- Event: `drmModeGetFB2` was called on framebuffer id `fbId`. -/
  | fbQuery (fbId : Nat)
  /-- Event: `drmPrimeHandleToFD` was called for memory plane `p` of display-plane index `i`. -/
  | exportTry (i : Nat) (p : Fin 4)
  /-- Event: `mmap` of `size` bytes succeeded for memory plane `p`. -/
  | mapPlane (i : Nat) (p : Fin 4) (size : Nat)
  /-- Event: `fwrite` of `size` bytes for memory plane `p`; `ok` is the write's success. -/
  | writePlane (i : Nat) (p : Fin 4) (size : Nat) (ok : Bool)
  /-- Event: `munmap` for memory plane `p`. -/
  | unmapPlane (i : Nat) (p : Fin 4)
  /-- Event: `close` of the exported prime descriptor for memory plane `p`. -/
  | closePrime (i : Nat) (p : Fin 4)
deriving DecidableEq, Repr

/-- Oracle outcomes of all system/driver calls a run can make. -/
structure Env where
  /-- Oracle: does `open("/dev/dri/card<c>")` succeed? -/
  openOk : Nat → Bool
  /-- Oracle for `drmGetCap(fd, DRM_CAP_DUMB_BUFFER)` on card `c`: `none` if the call
  fails (returns `< 0`), otherwise the reported `has_dumb` value. -/
  capDumb : Nat → Option Nat
  /-- Oracle: does `drmSetClientCap(DRM_CLIENT_CAP_ATOMIC, 1)` return 0? -/
  setAtomicOk : Bool
  /-- Oracle: does `drmSetClientCap(DRM_CLIENT_CAP_UNIVERSAL_PLANES, 1)` return 0? -/
  setUniversalOk : Bool
  /-- Oracle for `drmModeGetPlaneResources`: `none` on failure, else the plane-id array. -/
  planeRes : Option (List Nat)
  /-- Oracle for `drmModeGetPlane id`: `none` on failure (a null pointer), else
  `(fb_id, crtc_id)` of the plane's current state. -/
  getPlane : Nat → Option (Nat × Nat)
  /-- Oracle for `drmModeGetFB2 fbId`: `none` on failure, else the buffer descriptor. -/
  getFB2 : Nat → Option FB2
  /-- Oracle: does `fopen` of the output file for display-plane index `i` succeed? -/
  fopenOk : Nat → Bool
  /-- Value of `errno` after a failed `fopen` (always positive in reality). -/
  fopenErrno : Nat → Nat
  /-- Oracle: does `drmPrimeHandleToFD` succeed for memory plane `p` of index `i`? -/
  exportOk : Nat → Fin 4 → Bool
  /-- Oracle: does `mmap` succeed for memory plane `p` of index `i`? -/
  mmapOk : Nat → Fin 4 → Bool
  /-- Value of `errno` after a failed `mmap` (always positive in reality). -/
  mmapErrno : Nat → Fin 4 → Nat
  /-- Oracle: does the `fwrite` of memory plane `p` of index `i` succeed? -/
  fwriteOk : Nat → Fin 4 → Bool
  /-- Oracle for the indeterminate value of `save_png`'s local variable `ret`, which the
  source never initialises: on paths that assign `ret` this value is dead,
  but on the all-success path it is what `save_png` returns. -/
  savePngJunk : Nat → Int

/-- Byte length mapped for memory plane `p` (source line 96):
`size = fb2->pitches[p] * fb2->height / (!p ? 1 : 2);` where the
multiplication is 32-bit unsigned, hence taken modulo `2 ^ 32`. -/
def planeMapSize (p : Fin 4) (pitch height : Nat) : Nat :=
  pitch * height % 2 ^ 32 / (if p = (0 : Fin 4) then 1 else 2)

/-- The memory-plane loop of `save_png` (source lines 86–108), processing the
given list of memory-plane indices with current value `ret` of the `ret`
variable.  Returns the final `ret` and the events emitted. -/
def savePlanes (env : Env) (i : Nat) (fb2 : FB2) :
    List (Fin 4) → Int → Int × List Ev
  | [], ret => (ret, [])
  | p :: ps, ret =>
    if fb2.handles p = 0 then
      -- line 87: `if (!fb2->handles[p]) continue;`
      savePlanes env i fb2 ps ret
    else if env.exportOk i p = false then
      -- lines 89–92: export failed, `continue` (no descriptor to close)
      let rt := savePlanes env i fb2 ps ret
      (rt.1, Ev.exportTry i p :: rt.2)
    else
      let size := planeMapSize p (fb2.pitches p) fb2.height
      if env.mmapOk i p then
        -- lines 97–106: map, write (result ignored), unmap; line 107: close
        let rt := savePlanes env i fb2 ps ret
        (rt.1, Ev.exportTry i p :: Ev.mapPlane i p size ::
            Ev.writePlane i p size (env.fwriteOk i p) ::
            Ev.unmapPlane i p :: Ev.closePrime i p :: rt.2)
      else
        -- lines 99–101: `ret = -errno`, log; line 107: close
        let rt := savePlanes env i fb2 ps (-(env.mmapErrno i p : Int))
        (rt.1, Ev.exportTry i p :: Ev.closePrime i p :: rt.2)

/-- Source lines 66–111, `save_png`, for display-plane loop index `i`
(the `plane` argument used in the output filename).  Returns the value of
`ret` it returns, and the events emitted. -/
def save_png (env : Env) (i : Nat) (fb2 : FB2) : Int × List Ev :=
  if env.fopenOk i = false then
    -- lines 79–84: `ret = -errno; return ret;`
    (-(env.fopenErrno i : Int), [])
  else
    let rt := savePlanes env i fb2 [0, 1, 2, 3] (env.savePngJunk i)
    (rt.1, Ev.fileOpen i :: rt.2 ++ [Ev.fileClose i])

/-- The display-plane enumeration loop of `main` (source lines 168–191) over
the remaining plane ids, with `i` the current loop index.  Returns `none` when
the run hits undefined behaviour (`drmModeGetPlane` returned null and line 170
dereferences it), otherwise `some (ok, events)` where `ok` records whether the
loop ran to completion (so that line 193 sets `retval = EXIT_SUCCESS`). -/
def enumPlanes (env : Env) : List Nat → Nat → Option (Bool × List Ev)
  | [], _ => some (true, [])
  | id :: rest, i =>
    match env.getPlane id with
    | none => none   -- line 170 `plane->fb_id` dereferences a null pointer
    | some (fbId, crtcId) =>
      if fbId = 0 ∨ crtcId = 0 then
        -- lines 174–175: inactive plane, `continue`
        (enumPlanes env rest (i + 1)).map
          (fun r => (r.1, Ev.planeQuery id :: r.2))
      else
        match env.getFB2 fbId with
        | none =>
          -- lines 179–183: `goto out_free_resources` (exit with failure)
          some (false, [Ev.planeQuery id, Ev.fbQuery fbId])
        | some fb2 =>
          let rt := save_png env i fb2
          if rt.1 < 0 then
            -- lines 186–190: `goto out_close_prime_fd` (exit with failure)
            some (false, Ev.planeQuery id :: Ev.fbQuery fbId :: rt.2)
          else
            (enumPlanes env rest (i + 1)).map
              (fun r => (r.1, Ev.planeQuery id :: Ev.fbQuery fbId :: (rt.2 ++ r.2)))

/-- Outcome of the device-probing loop together with the re-open
(source lines 130–150). -/
inductive LocOut where
  /-- Case: some `open` failed: `goto out_return`, exit with failure. -/
  | fail (t : List Ev)
  /-- Case: card `card` was accepted and re-opened as descriptor `fd`. -/
  | ok (card fd : Nat) (t : List Ev)
deriving DecidableEq, Repr

/-- Prepend the probe-and-close events of a rejected card to a locator
outcome. -/
def LocOut.prepend (evs : List Ev) : LocOut → LocOut
  | .fail t => .fail (evs ++ t)
  | .ok c fd t => .ok c fd (evs ++ t)

/-- Trace of a locator outcome. -/
def LocOut.trace : LocOut → List Ev
  | .fail t => t
  | .ok _ _ t => t

/-- The device-probing loop (source lines 130–144) starting at card index
`card` with next fresh descriptor token `nfd`, followed by the re-open of the
accepted node (source lines 146–150).  The C loop is unbounded; `fuel` bounds
the number of probed cards, and `none` means the bound was hit first. -/
def locate (env : Env) : Nat → Nat → Nat → Option LocOut
  | 0, _, _ => none
  | fuel + 1, card, nfd =>
    if env.openOk card = false then
      -- lines 134–137: open failed, `goto out_return`
      some (.fail [])
    else
      match env.capDumb card with
      | some v =>
        if v ≠ 0 then
          -- lines 139–141: capability present, `break`; lines 146–150: re-open.
          -- The descriptor `nfd` obtained by the probe is never closed.
          if env.openOk card then
            some (.ok card (nfd + 1) [Ev.openDev card nfd, Ev.openDev card (nfd + 1)])
          else
            some (.fail [Ev.openDev card nfd])
        else
          -- line 143: reject, close, try the next card
          (locate env fuel (card + 1) (nfd + 1)).map
            (LocOut.prepend [Ev.openDev card nfd, Ev.closeFd nfd])
      | none =>
        -- `drmGetCap` failed: same reject path
        (locate env fuel (card + 1) (nfd + 1)).map
          (LocOut.prepend [Ev.openDev card nfd, Ev.closeFd nfd])

/-- Result of a complete run of `main`: the process exit status
(`EXIT_SUCCESS = 0` / `EXIT_FAILURE = 1`) and the event trace. -/
structure MainRes where
  exit : Nat
  trace : List Ev
deriving DecidableEq, Repr

/-- Source lines 113–205, `main`.  `argc` is the argument count and `fuel`
bounds the device-probing loop.  `none` models a run that hits undefined
behaviour or exhausts `fuel`.  The `close(prime_fd)` and `drmModeFreeFB(fb)`
on the shared exit path act on variables `main` never initialises; they do
not influence control flow or the exit status and emit no event here. -/
def mainRun (env : Env) (argc fuel : Nat) : Option MainRes :=
  if argc < 2 then
    -- lines 125–128: usage error
    some ⟨1, []⟩
  else
    match locate env fuel 0 0 with
    | none => none
    | some (.fail t) => some ⟨1, t⟩
    | some (.ok _ fd t) =>
      if env.setAtomicOk = false then
        -- lines 152–155: `goto out_close_fd`
        some ⟨1, t ++ [Ev.closeFd fd]⟩
      else if env.setUniversalOk = false then
        -- lines 157–160: `goto out_close_fd`
        some ⟨1, t ++ [Ev.closeFd fd]⟩
      else
        match env.planeRes with
        | none =>
          -- lines 162–166: `goto out_close_fd`
          some ⟨1, t ++ [Ev.closeFd fd]⟩
        | some planes =>
          match enumPlanes env planes 0 with
          | none => none
          | some (ok, t2) =>
            some ⟨if ok then 0 else 1, t ++ t2 ++ [Ev.closeFd fd]⟩

/-! Trace observations. -/

/-- Descriptors returned by successful `open`s of device nodes in a trace. -/
def openDevFds (t : List Ev) : List Nat :=
  t.filterMap (fun e => match e with | .openDev _ fd => some fd | _ => none)

/-- Descriptors passed to `close` in a trace. -/
def closedFds (t : List Ev) : List Nat :=
  t.filterMap (fun e => match e with | .closeFd fd => some fd | _ => none)

/-- Device descriptors opened but never closed in a trace. -/
def leakedFds (t : List Ev) : List Nat :=
  (openDevFds t).filter (fun fd => decide (fd ∉ closedFds t))

/-! Concrete environments used to evaluate the model. -/

/-- A framebuffer with one present memory plane (handle 5 at index 0,
pitch 16, height 2); the other three handles are the absent sentinel 0. -/
def fbOne : FB2 :=
  ⟨4, 2, fun _ => 16, fun p => if p = (0 : Fin 4) then 5 else 0⟩

/-- Baseline environment: card 0 has the dumb-buffer capability, both client
capabilities can be set, one plane (id 42) is active on framebuffer 7 =
`fbOne`, and every file/export/map/write operation succeeds.  `save_png`'s
uninitialised `ret` happens to be 0. -/
def envBase : Env :=
  { openOk := fun _ => true
  , capDumb := fun _ => some 1
  , setAtomicOk := true
  , setUniversalOk := true
  , planeRes := some [42]
  , getPlane := fun id => if id = 42 then some (7, 3) else none
  , getFB2 := fun f => if f = 7 then some fbOne else none
  , fopenOk := fun _ => true
  , fopenErrno := fun _ => 13
  , exportOk := fun _ _ => true
  , mmapOk := fun _ _ => true
  , mmapErrno := fun _ _ => 13
  , fwriteOk := fun _ _ => true
  , savePngJunk := fun _ => 0 }

/-- Environment `envBase`, except that `save_png`'s uninitialised `ret` happens to
be −1. -/
def envJunkNeg : Env := { envBase with savePngJunk := fun _ => -1 }

/-- Two active planes (ids 42 and 43, framebuffers 7 and 8); `mmap` fails for
every memory plane of display-plane index 0 and succeeds elsewhere. -/
def envMapFail : Env :=
  { envBase with
    planeRes := some [42, 43]
  , getPlane := fun id =>
      if id = 42 then some (7, 3) else if id = 43 then some (8, 3) else none
  , getFB2 := fun f => if f = 7 then some fbOne else if f = 8 then some fbOne else none
  , mmapOk := fun i _ => i != 0 }

/-- Card 0 lacks the dumb-buffer capability; card 1 has it. -/
def envSecondCard : Env :=
  { envBase with capDumb := fun c => if c = 0 then some 0 else some 1 }

/-- The plane-state query fails (returns null) for every plane id. -/
def envPlaneNull : Env := { envBase with getPlane := fun _ => none }

/-- Environment in which every `fwrite` to the output file fails. -/
def envWriteFail : Env := { envBase with fwriteOk := fun _ _ => false }

/-- Environment with an inactive plane 41 (bound buffer id 0) enumerated
before the active plane 42. -/
def envInactive : Env :=
  { envBase with
    planeRes := some [41, 42]
  , getPlane := fun id =>
      if id = 41 then some (0, 3) else if id = 42 then some (7, 3) else none }

/-! Claim theorems. -/

/-- C1: evaluation of `main` at a failing input for the exit-code contract.
In `envJunkNeg` every probe/open/negotiate/enumerate step succeeds — the only
difference from `envBase` is that `save_png`'s `ret`, which the source never
initialises, happens to hold −1 — yet the process exits with status 1
(`main` treats the garbage negative return of `save_png` as a fatal
screenshot failure), where the claim requires status 0.  The identical
all-success run `envBase` exits 0, confirming the uninitialised variable is
the sole cause. -/
theorem C1_exit_one_despite_success :
    mainRun envJunkNeg 2 1 =
      some ⟨1, [Ev.openDev 0 0, Ev.openDev 0 1, Ev.planeQuery 42, Ev.fbQuery 7,
                Ev.fileOpen 0, Ev.exportTry 0 0, Ev.mapPlane 0 0 32,
                Ev.writePlane 0 0 32 true, Ev.unmapPlane 0 0, Ev.closePrime 0 0,
                Ev.fileClose 0, Ev.closeFd 1]⟩ ∧
    mainRun envBase 2 1 =
      some ⟨0, [Ev.openDev 0 0, Ev.openDev 0 1, Ev.planeQuery 42, Ev.fbQuery 7,
                Ev.fileOpen 0, Ev.exportTry 0 0, Ev.mapPlane 0 0 32,
                Ev.writePlane 0 0 32 true, Ev.unmapPlane 0 0, Ev.closePrime 0 0,
                Ev.fileClose 0, Ev.closeFd 1]⟩ := by
  constructor <;> rfl

/-- C2, counterexample: in `envMapFail` the planes 42 and 43 are both active,
only the `mmap` of display-plane index 0 fails, yet the run exits with status
1 and plane 43 is never even queried — mapping failure is fatal to the run,
not non-fatal as claimed. -/
theorem C2_map_failure_aborts_run_cex :
    mainRun envMapFail 2 1 =
      some ⟨1, [Ev.openDev 0 0, Ev.openDev 0 1, Ev.planeQuery 42, Ev.fbQuery 7,
                Ev.fileOpen 0, Ev.exportTry 0 0, Ev.closePrime 0 0,
                Ev.fileClose 0, Ev.closeFd 1]⟩ ∧
    envMapFail.getPlane 43 = some (8, 3) ∧
    envMapFail.planeRes = some [42, 43] ∧
    Ev.planeQuery 43 ∉
      [Ev.openDev 0 0, Ev.openDev 0 1, Ev.planeQuery 42, Ev.fbQuery 7,
       Ev.fileOpen 0, Ev.exportTry 0 0, Ev.closePrime 0 0,
       Ev.fileClose 0, Ev.closeFd 1] := by
  refine ⟨rfl, rfl, rfl, by decide⟩

/-- C3, counterexample: probing rejects card 0 (closing it) and accepts
card 1, after which the accepted node is opened a second time; the locator
ends with two device descriptors open, not exactly one as claimed. -/
theorem C3_locator_leaves_two_fds_cex :
    locate envSecondCard 2 0 0 =
      some (.ok 1 2 [Ev.openDev 0 0, Ev.closeFd 0, Ev.openDev 1 1, Ev.openDev 1 2]) ∧
    (leakedFds [Ev.openDev 0 0, Ev.closeFd 0, Ev.openDev 1 1, Ev.openDev 1 2]).length = 2 ∧
    (leakedFds [Ev.openDev 0 0, Ev.closeFd 0, Ev.openDev 1 1, Ev.openDev 1 2]).length ≠ 1 := by
  refine ⟨rfl, by decide, by decide⟩

/-- C4, counterexample: when the plane-state query fails (returns null) for
the only plane, the run does not skip the plane and continue — it
dereferences the null result (line 170), modelled as the undefined outcome
`none`; had the plane been skipped the same environment would have completed
with exit status 0, as exhibited on the empty remainder. -/
theorem C4_plane_query_failure_crash_cex :
    mainRun envPlaneNull 2 1 = none ∧
    enumPlanes envPlaneNull [42] 0 = none ∧
    enumPlanes envPlaneNull [] 1 = some (true, []) := by
  refine ⟨rfl, rfl, rfl⟩

/-- C5, counterexample: in `envWriteFail` the `fwrite` of memory plane 0
fails (recorded as `ok := false` in the write event), yet `save_png` returns
0 — exactly what it returns in the all-success environment `envBase` — so the
write failure is not propagated to the plane's result. -/
theorem C5_write_failure_ignored_cex :
    save_png envWriteFail 0 fbOne =
      (0, [Ev.fileOpen 0, Ev.exportTry 0 0, Ev.mapPlane 0 0 32,
           Ev.writePlane 0 0 32 false, Ev.unmapPlane 0 0, Ev.closePrime 0 0,
           Ev.fileClose 0]) ∧
    (save_png envWriteFail 0 fbOne).1 = (save_png envBase 0 fbOne).1 := by
  refine ⟨rfl, rfl⟩

/-- C6, counterexample: the mapped byte length is computed in 32-bit
arithmetic, so for `pitch = height = 2 ^ 16` (both positive) the product
overflows to 0 and the mapped length for plane 0 is 0, not
`pitch * height`. -/
theorem C6_size_overflow_cex :
    planeMapSize 0 65536 65536 = 0 ∧ (65536 : Nat) * 65536 ≠ 0 ∧
    0 < (65536 : Nat) := by
  refine ⟨rfl, by decide, by decide⟩

/-- C10, counterexample: `len = fb->width * fb->height` is a 32-bit product,
so a `width = height = 2 ^ 16` framebuffer yields 0 converted samples, not
`width * height`. -/
theorem C10_length_overflow_cex :
    (convert_to_24 ⟨65536, 65536, 32⟩ (fun _ => 0)).length = 0 ∧
    (65536 : Nat) * 65536 ≠ 0 := by
  refine ⟨rfl, by decide⟩

/-- C4, amended: a failed per-plane state query is not handled at all —
`main` dereferences the null result of `drmModeGetPlane` at line 170, so the
run has undefined behaviour (modelled as `none`); the plane is not skipped
and enumeration does not continue. -/
theorem C4_plane_query_failure_unhandled (env : Env) (id : Nat)
    (rest : List Nat) (i : Nat) (h : env.getPlane id = none) :
    enumPlanes env (id :: rest) i = none := by
  simp [enumPlanes, h]

/-- Closed instance of `C4_plane_query_failure_unhandled` at a concrete
environment whose plane-state query fails. -/
theorem C4_plane_query_failure_unhandled_witness :
    envPlaneNull.getPlane 5 = none ∧ enumPlanes envPlaneNull [5, 6] 0 = none :=
  ⟨rfl, C4_plane_query_failure_unhandled envPlaneNull 5 [6] 0 rfl⟩

/-- C6, amended: for positive pitch and height whose product fits in 32 bits,
the mapped byte length is `pitch * height` for memory-plane index 0 and
`pitch * height / 2` (integer division) for indices 1–3; when the product
does not fit, the 32-bit multiplication wraps (see the counterexample). -/
theorem C6_planeMapSize_eq (pitch height : Nat) (hp : 0 < pitch)
    (hh : 0 < height) (hfit : pitch * height < 2 ^ 32) :
    planeMapSize 0 pitch height = pitch * height ∧
    ∀ p : Fin 4, p ≠ 0 → planeMapSize p pitch height = pitch * height / 2 := by
  have hfit2 : pitch * height < 4294967296 := by norm_num at hfit; exact hfit
  refine ⟨?_, fun p hp0 => ?_⟩
  · simp [planeMapSize, Nat.mod_eq_of_lt hfit2]
  · simp [planeMapSize, Nat.mod_eq_of_lt hfit2, hp0]

/-- Closed instance of `C6_planeMapSize_eq` at pitch 16, height 2. -/
theorem C6_planeMapSize_eq_witness :
    0 < 16 ∧ 0 < 2 ∧ 16 * 2 < 2 ^ 32 ∧
    (planeMapSize 0 16 2 = 16 * 2 ∧
     ∀ p : Fin 4, p ≠ 0 → planeMapSize p 16 2 = 16 * 2 / 2) :=
  ⟨by decide, by decide, by decide, C6_planeMapSize_eq 16 2 (by decide) (by decide) (by decide)⟩

/-- C10, amended: `convert_to_24` is total over every bits-per-pixel value;
for any `bpp ≠ 16` it reads the source as 32-bit packed pixels and produces
`width * height mod 2 ^ 32` samples in row-major order (equal to
`width * height` whenever the product fits in 32 bits) with no rejection; for
every 32-bit pixel, blue is bits 0–7, green bits 8–15, red bits 16–23, the
top 8 bits are discarded and the bottom 24 bits are preserved unchanged. -/
theorem C10_convert_total_nb16 (fb : FB) (src : Nat → Nat)
    (hbpp : fb.bpp ≠ 16) :
    convert_to_24 fb src =
      (List.range (fb.width * fb.height % 2 ^ 32)).map
        (fun i => rgb32_to_24 (src i)) ∧
    (convert_to_24 fb src).length = fb.width * fb.height % 2 ^ 32 ∧
    (fb.width * fb.height < 2 ^ 32 →
      (convert_to_24 fb src).length = fb.width * fb.height) ∧
    ∀ px, (rgb32_to_24 px).b = px % 256 ∧
      (rgb32_to_24 px).g = px / 256 % 256 ∧
      (rgb32_to_24 px).r = px / 65536 % 256 ∧
      (rgb32_to_24 px).b + 256 * (rgb32_to_24 px).g + 65536 * (rgb32_to_24 px).r
        = px % 2 ^ 24 ∧
      rgb32_to_24 px = rgb32_to_24 (px % 2 ^ 24) := by
  have h24 : (2 : Nat) ^ 24 = 16777216 := by norm_num
  refine ⟨by simp [convert_to_24, hbpp], by simp [convert_to_24, hbpp],
    fun hlt => by norm_num at hlt; simp [convert_to_24, hbpp, Nat.mod_eq_of_lt hlt],
    fun px => ?_⟩
  rw [rgb32_to_24_arith, rgb32_to_24_arith (px % 2 ^ 24), h24]
  dsimp only
  refine ⟨rfl, rfl, rfl, by omega, ?_⟩
  simp only [uint24.mk.injEq]
  omega

/-- Closed instance of `C10_convert_total_nb16` at a 2×1, 32-bit
framebuffer. -/
theorem C10_convert_total_nb16_witness :
    (FB.mk 2 1 32).bpp ≠ 16 ∧
    (convert_to_24 (FB.mk 2 1 32) (fun i => if i = 0 then 0xFF0000 else 0x10203040) =
      (List.range ((FB.mk 2 1 32).width * (FB.mk 2 1 32).height % 2 ^ 32)).map
        (fun i => rgb32_to_24 (if i = 0 then 0xFF0000 else 0x10203040)) ∧
     (convert_to_24 (FB.mk 2 1 32) (fun i => if i = 0 then 0xFF0000 else 0x10203040)).length
        = (FB.mk 2 1 32).width * (FB.mk 2 1 32).height % 2 ^ 32 ∧
     ((FB.mk 2 1 32).width * (FB.mk 2 1 32).height < 2 ^ 32 →
      (convert_to_24 (FB.mk 2 1 32) (fun i => if i = 0 then 0xFF0000 else 0x10203040)).length
        = (FB.mk 2 1 32).width * (FB.mk 2 1 32).height) ∧
     ∀ px, (rgb32_to_24 px).b = px % 256 ∧
       (rgb32_to_24 px).g = px / 256 % 256 ∧
       (rgb32_to_24 px).r = px / 65536 % 256 ∧
       (rgb32_to_24 px).b + 256 * (rgb32_to_24 px).g + 65536 * (rgb32_to_24 px).r
         = px % 2 ^ 24 ∧
       rgb32_to_24 px = rgb32_to_24 (px % 2 ^ 24)) :=
  ⟨by decide,
   C10_convert_total_nb16 (FB.mk 2 1 32)
     (fun i => if i = 0 then 0xFF0000 else 0x10203040) (by decide)⟩

/-- Helper for C5: the final value of `ret` in the memory-plane loop does not
depend on the write outcomes. -/
theorem savePlanes_fst_fwrite (env : Env) (f : Nat → Fin 4 → Bool) (i : Nat)
    (fb2 : FB2) : ∀ l (ret : Int),
    (savePlanes { env with fwriteOk := f } i fb2 l ret).1 =
      (savePlanes env i fb2 l ret).1 := by
  intro l
  induction l with
  | nil => intro ret; rfl
  | cons p ps ih =>
    intro ret
    rw [savePlanes, savePlanes]
    by_cases h1 : fb2.handles p = 0
    · simp only [h1, if_pos rfl]
      exact ih ret
    · by_cases h2 : env.exportOk i p = false
      · simp [h1, h2, ih ret]
      · by_cases h3 : env.mmapOk i p
        · simp [h1, h2, h3, ih ret]
        · simp [h1, h2, h3, ih (-(env.mmapErrno i p : Int))]

/-- C5, amended: the return value of `fwrite` is never inspected, so a
failure to write a memory plane's bytes to the output file is NOT propagated
to the plane's result: `save_png` returns the same value under any assignment
of write outcomes.  Only an output-file open failure or a mapping failure is
recorded in the result. -/
theorem C5_write_result_independent (env : Env) (f : Nat → Fin 4 → Bool)
    (i : Nat) (fb2 : FB2) :
    (save_png { env with fwriteOk := f } i fb2).1 = (save_png env i fb2).1 := by
  rw [save_png, save_png]
  by_cases h : env.fopenOk i = false
  · simp [h]
  · simp [h, savePlanes_fst_fwrite]

/-- Helper for C2: once `ret` is negative it stays negative through the rest
of the memory-plane loop, provided every recorded `errno` is positive. -/
theorem savePlanes_neg_preserved (env : Env) (i : Nat) (fb2 : FB2)
    (hpos : ∀ q : Fin 4, 0 < env.mmapErrno i q) :
    ∀ l (ret : Int), ret < 0 → (savePlanes env i fb2 l ret).1 < 0 := by
  intro l
  induction l with
  | nil => intro ret hret; exact hret
  | cons p ps ih =>
    intro ret hret
    rw [savePlanes]
    by_cases h1 : fb2.handles p = 0
    · simp only [h1, if_pos rfl]
      exact ih ret hret
    · by_cases h2 : env.exportOk i p = false
      · simp only [h1, if_neg h1, h2, if_pos rfl]
        exact ih ret hret
      · by_cases h3 : env.mmapOk i p
        · simp [h1, h2, h3]
          exact ih ret hret
        · simp [h1, h2, h3]
          refine ih _ ?_
          have := hpos p
          omega

/-- C2, amended: a mapping failure for a memory plane is handled locally —
the error is recorded into `ret`, the exported descriptor is still closed
unconditionally, and the loop continues with the remaining memory planes of
the same buffer — but it is NOT non-fatal to the run: the recorded negative
`ret` (negative whenever the recorded `errno` values are positive) is
returned by `save_png`, and `main` treats that as fatal, aborting before any
further display plane is processed. -/
theorem C2_map_failure_cleanup_and_abort (env : Env) (i : Nat) (fb2 : FB2)
    (p : Fin 4) (hh : fb2.handles p ≠ 0) (he : env.exportOk i p = true)
    (hm : env.mmapOk i p = false) :
    (∀ ps (ret : Int),
      savePlanes env i fb2 (p :: ps) ret =
        ((savePlanes env i fb2 ps (-(env.mmapErrno i p : Int))).1,
         Ev.exportTry i p :: Ev.closePrime i p ::
           (savePlanes env i fb2 ps (-(env.mmapErrno i p : Int))).2)) ∧
    (∀ ps (ret : Int), (∀ q : Fin 4, 0 < env.mmapErrno i q) →
      (savePlanes env i fb2 (p :: ps) ret).1 < 0) ∧
    (∀ id rest fbId crtcId, env.getPlane id = some (fbId, crtcId) →
      fbId ≠ 0 → crtcId ≠ 0 → env.getFB2 fbId = some fb2 →
      (save_png env i fb2).1 < 0 →
      enumPlanes env (id :: rest) i =
        some (false, Ev.planeQuery id :: Ev.fbQuery fbId :: (save_png env i fb2).2)) := by
  refine ⟨fun ps ret => ?_, fun ps ret hpos => ?_, ?_⟩
  · rw [savePlanes]
    simp [hh, he, hm]
  · rw [savePlanes]
    simp [hh, he, hm]
    refine savePlanes_neg_preserved env i fb2 hpos ps _ ?_
    have := hpos p
    omega
  · intro id rest fbId crtcId hq hfb hcrtc hfb2 hneg
    rw [enumPlanes, hq]
    simp [hfb, hcrtc, hfb2, hneg]

/-- Helper for C8: a memory plane whose handle is 0 generates no export, map
or write event anywhere in the memory-plane loop. -/
theorem savePlanes_absent_events (env : Env) (i : Nat) (fb2 : FB2) (p : Fin 4)
    (h : fb2.handles p = 0) : ∀ l (ret : Int),
    Ev.exportTry i p ∉ (savePlanes env i fb2 l ret).2 ∧
    (∀ s, Ev.mapPlane i p s ∉ (savePlanes env i fb2 l ret).2) ∧
    (∀ s b, Ev.writePlane i p s b ∉ (savePlanes env i fb2 l ret).2) := by
  intro l
  induction l with
  | nil => intro ret; simp [savePlanes]
  | cons q ps ih =>
    intro ret
    rw [savePlanes]
    by_cases h1 : fb2.handles q = 0
    · simp only [h1, if_pos rfl]
      exact ih ret
    · have hqp : ¬ (p = q) := fun he => h1 (he ▸ h)
      by_cases h2 : env.exportOk i q = false
      · have hr := ih ret
        simp [h1, h2, hqp, hr.1, hr.2.1, hr.2.2]
      · by_cases h3 : env.mmapOk i q
        · have hr := ih ret
          simp [h1, h2, h3, hqp, hr.1, hr.2.1, hr.2.2]
        · have hr := ih (-(env.mmapErrno i q : Int))
          simp [h1, h2, h3, hqp, hr.1, hr.2.1, hr.2.2]

/-- C8: a memory plane whose handle is 0 is skipped entirely — the loop step
is a no-op for it, it is never exported, never mapped, and no bytes are
written for it to the output file. -/
theorem C8_absent_plane_skipped (env : Env) (i : Nat) (fb2 : FB2) (p : Fin 4)
    (h : fb2.handles p = 0) :
    (∀ ps (ret : Int), savePlanes env i fb2 (p :: ps) ret = savePlanes env i fb2 ps ret) ∧
    Ev.exportTry i p ∉ (save_png env i fb2).2 ∧
    (∀ s, Ev.mapPlane i p s ∉ (save_png env i fb2).2) ∧
    (∀ s b, Ev.writePlane i p s b ∉ (save_png env i fb2).2) := by
  have habs := savePlanes_absent_events env i fb2 p h
  refine ⟨fun ps ret => by rw [savePlanes]; simp [h], ?_, ?_, ?_⟩
  · rw [save_png]
    by_cases hf : env.fopenOk i = false
    · simp [hf]
    · have hr := habs [0, 1, 2, 3] (env.savePngJunk i)
      simp [hf, hr.1]
  · intro s
    rw [save_png]
    by_cases hf : env.fopenOk i = false
    · simp [hf]
    · have hr := habs [0, 1, 2, 3] (env.savePngJunk i)
      simp [hf, hr.2.1 s]
  · intro s b
    rw [save_png]
    by_cases hf : env.fopenOk i = false
    · simp [hf]
    · have hr := habs [0, 1, 2, 3] (env.savePngJunk i)
      simp [hf, hr.2.2 s b]

/-- Computation rule for `openDevFds` on the empty trace. -/
theorem openDevFds_nil : openDevFds [] = [] := rfl

/-- Computation rule for `closedFds` on the empty trace. -/
theorem closedFds_nil : closedFds [] = [] := rfl

/-- Computation rule for `openDevFds` on a device-open event. -/
theorem openDevFds_cons_open (c x : Nat) (t : List Ev) :
    openDevFds (Ev.openDev c x :: t) = x :: openDevFds t := rfl

/-- Computation rule for `openDevFds` on a close event. -/
theorem openDevFds_cons_close (x : Nat) (t : List Ev) :
    openDevFds (Ev.closeFd x :: t) = openDevFds t := rfl

/-- Computation rule for `closedFds` on a device-open event. -/
theorem closedFds_cons_open (c x : Nat) (t : List Ev) :
    closedFds (Ev.openDev c x :: t) = closedFds t := rfl

/-- Computation rule for `closedFds` on a close event. -/
theorem closedFds_cons_close (x : Nat) (t : List Ev) :
    closedFds (Ev.closeFd x :: t) = x :: closedFds t := rfl

/-- Helper for C3: a probe that opens `x` and closes it again does not change
the set of leaked descriptors, provided `x` is fresh for the rest of the
trace. -/
theorem leakedFds_openclose (c x : Nat) (t : List Ev)
    (hx : ∀ fd, fd ∈ openDevFds t → x < fd) :
    leakedFds (Ev.openDev c x :: Ev.closeFd x :: t) = leakedFds t := by
  unfold leakedFds
  rw [openDevFds_cons_open, openDevFds_cons_close, closedFds_cons_open,
    closedFds_cons_close]
  rw [List.filter_cons_of_neg (by simp)]
  refine List.filter_congr ?_
  intro fd hfd
  have hne : fd ≠ x := by have := hx fd hfd; omega
  rw [decide_eq_decide]
  simp [List.mem_cons, hne]

/-- Helper for C3: every descriptor opened by `locate` when the fresh-token
counter starts at `nfd` is at least `nfd`. -/
theorem locate_fd_bound (env : Env) :
    ∀ fuel card nfd r, locate env fuel card nfd = some r →
      ∀ fd, fd ∈ openDevFds r.trace → nfd ≤ fd := by
  intro fuel
  induction fuel with
  | zero => intro card nfd r h; rw [locate] at h; simp at h
  | succ n ih =>
    intro card nfd r h fd hfd
    rw [locate] at h
    by_cases ho : env.openOk card = false
    · rw [if_pos ho] at h
      cases h
      simp [LocOut.trace, openDevFds] at hfd
    · rw [if_neg ho] at h
      have hreject : ∀ r2, locate env n (card + 1) (nfd + 1) = some r2 →
          LocOut.prepend [Ev.openDev card nfd, Ev.closeFd nfd] r2 = r → nfd ≤ fd := by
        intro r2 hrec hpre
        cases r2 with
        | fail t2 =>
          rw [← hpre] at hfd
          simp only [LocOut.prepend, LocOut.trace, List.cons_append,
            List.nil_append, openDevFds_cons_open, openDevFds_cons_close,
            List.mem_cons] at hfd
          rcases hfd with rfl | hfd2
          · exact Nat.le_refl fd
          · have := ih (card + 1) (nfd + 1) (.fail t2) hrec fd hfd2
            omega
        | ok c2 fd2 t2 =>
          rw [← hpre] at hfd
          simp only [LocOut.prepend, LocOut.trace, List.cons_append,
            List.nil_append, openDevFds_cons_open, openDevFds_cons_close,
            List.mem_cons] at hfd
          rcases hfd with rfl | hfd2
          · exact Nat.le_refl fd
          · have := ih (card + 1) (nfd + 1) (.ok c2 fd2 t2) hrec fd hfd2
            omega
      cases hc : env.capDumb card with
      | some v =>
        simp only [hc] at h
        by_cases hv : v ≠ 0
        · rw [if_pos hv] at h
          by_cases ho2 : env.openOk card = true
          · rw [if_pos ho2] at h
            cases h
            simp only [LocOut.trace, openDevFds_cons_open, openDevFds_nil,
              List.mem_cons, List.not_mem_nil, or_false] at hfd
            rcases hfd with rfl | rfl <;> omega
          · rw [if_neg ho2] at h
            cases h
            simp only [LocOut.trace, openDevFds_cons_open, openDevFds_nil,
              List.mem_cons, List.not_mem_nil, or_false] at hfd
            omega
        · rw [if_neg hv] at h
          cases hrec : locate env n (card + 1) (nfd + 1) with
          | none => rw [hrec] at h; simp at h
          | some r2 =>
            rw [hrec] at h
            simp only [Option.map_some', Option.some.injEq] at h
            exact hreject r2 hrec h
      | none =>
        simp only [hc] at h
        cases hrec : locate env n (card + 1) (nfd + 1) with
        | none => rw [hrec] at h; simp at h
        | some r2 =>
          rw [hrec] at h
          simp only [Option.map_some', Option.some.injEq] at h
          exact hreject r2 hrec h

/-- C3, amended: when the device locator succeeds it leaves exactly TWO
device descriptors open, not one — the accepted card's probe descriptor is
leaked when the node is opened a second time (source lines 139–146) — while
every probed-but-rejected card's descriptor is indeed closed before the next
index is tried. -/
theorem C3_locator_open_descriptors (env : Env) :
    ∀ fuel card nfd c fd t, locate env fuel card nfd = some (.ok c fd t) →
      (leakedFds t).length = 2 ∧
      ∀ c2 fd2, Ev.openDev c2 fd2 ∈ t → c2 ≠ c → fd2 ∈ closedFds t := by
  intro fuel
  induction fuel with
  | zero => intro card nfd c fd t h; rw [locate] at h; simp at h
  | succ n ih =>
    intro card nfd c fd t h
    rw [locate] at h
    by_cases ho : env.openOk card = false
    · rw [if_pos ho] at h
      simp at h
    · rw [if_neg ho] at h
      have hreject : ∀ r2, locate env n (card + 1) (nfd + 1) = some r2 →
          LocOut.prepend [Ev.openDev card nfd, Ev.closeFd nfd] r2 = .ok c fd t →
          (leakedFds t).length = 2 ∧
          ∀ c2 fd2, Ev.openDev c2 fd2 ∈ t → c2 ≠ c → fd2 ∈ closedFds t := by
        intro r2 hrec hpre
        cases r2 with
        | fail t2 => simp [LocOut.prepend] at hpre
        | ok c3 fd3 t3 =>
          simp only [LocOut.prepend, LocOut.ok.injEq, List.cons_append,
            List.nil_append] at hpre
          obtain ⟨rfl, rfl, rfl⟩ := hpre
          obtain ⟨ihlen, ihmem⟩ := ih (card + 1) (nfd + 1) c3 fd3 t3 hrec
          have hbound : ∀ x, x ∈ openDevFds t3 → nfd < x := by
            intro x hx
            have := locate_fd_bound env n (card + 1) (nfd + 1)
              (.ok c3 fd3 t3) hrec x hx
            simp only [LocOut.trace] at this
            omega
          refine ⟨?_, ?_⟩
          · rw [leakedFds_openclose card nfd t3 hbound]
            exact ihlen
          · intro c2 fd2 hmem hne
            rw [closedFds_cons_open, closedFds_cons_close]
            rcases List.mem_cons.mp hmem with heq | hmem2
            · injection heq with e1 e2
              subst e2
              exact List.mem_cons_self _ _
            · rcases List.mem_cons.mp hmem2 with heq2 | hmem3
              · exact absurd heq2 (by simp)
              · exact List.mem_cons_of_mem _ (ihmem c2 fd2 hmem3 hne)
      cases hc : env.capDumb card with
      | some v =>
        simp only [hc] at h
        by_cases hv : v ≠ 0
        · rw [if_pos hv] at h
          by_cases ho2 : env.openOk card = true
          · rw [if_pos ho2] at h
            cases h
            refine ⟨by simp [leakedFds, openDevFds, closedFds], ?_⟩
            intro c2 fd2 hmem hne
            simp only [List.mem_cons, List.not_mem_nil, or_false] at hmem
            rcases hmem with heq | heq <;>
              (injection heq with e1 e2; exact absurd e1 hne)
          · rw [if_neg ho2] at h
            simp at h
        · rw [if_neg hv] at h
          cases hrec : locate env n (card + 1) (nfd + 1) with
          | none => rw [hrec] at h; simp at h
          | some r2 =>
            rw [hrec] at h
            simp only [Option.map_some', Option.some.injEq] at h
            exact hreject r2 hrec h
      | none =>
        simp only [hc] at h
        cases hrec : locate env n (card + 1) (nfd + 1) with
        | none => rw [hrec] at h; simp at h
        | some r2 =>
          rw [hrec] at h
          simp only [Option.map_some', Option.some.injEq] at h
          exact hreject r2 hrec h

/-- Helper for C9: the memory-plane loop never emits a buffer-resolution
event. -/
theorem savePlanes_no_fbQuery (env : Env) (i : Nat) (fb2 : FB2) :
    ∀ l (ret : Int) (f : Nat), Ev.fbQuery f ∉ (savePlanes env i fb2 l ret).2 := by
  intro l
  induction l with
  | nil => intro ret f; simp [savePlanes]
  | cons p ps ih =>
    intro ret f
    rw [savePlanes]
    by_cases h1 : fb2.handles p = 0
    · simp only [h1, if_pos rfl]
      exact ih ret f
    · by_cases h2 : env.exportOk i p = false
      · simp [h1, h2, ih ret f]
      · by_cases h3 : env.mmapOk i p
        · simp [h1, h2, h3, ih ret f]
        · simp [h1, h2, h3, ih (-(env.mmapErrno i p : Int)) f]

/-- Helper for C9: `save_png` never emits a buffer-resolution event. -/
theorem save_png_no_fbQuery (env : Env) (i : Nat) (fb2 : FB2) (f : Nat) :
    Ev.fbQuery f ∉ (save_png env i fb2).2 := by
  rw [save_png]
  by_cases hf : env.fopenOk i = false
  · simp [hf]
  · simp [hf, savePlanes_no_fbQuery env i fb2 [0, 1, 2, 3] (env.savePngJunk i) f]

/-- C9: a display plane whose bound buffer id or pipeline id is 0 is skipped
with no error — the enumeration step is exactly the enumeration of the
remaining planes, with only the plane-state query recorded — and every
buffer-resolution call in any enumeration trace originates from a plane
whose buffer id and pipeline id are both non-zero, so inactive planes are
never passed to buffer resolution. -/
theorem C9_inactive_plane_skipped (env : Env) (id : Nat) (rest : List Nat)
    (i fbId crtcId : Nat) (hq : env.getPlane id = some (fbId, crtcId))
    (hin : fbId = 0 ∨ crtcId = 0) :
    (enumPlanes env (id :: rest) i =
      (enumPlanes env rest (i + 1)).map
        (fun r => (r.1, Ev.planeQuery id :: r.2))) ∧
    (∀ planes, ∀ j ok t, enumPlanes env planes j = some (ok, t) →
      ∀ f, Ev.fbQuery f ∈ t →
        ∃ pid c, Ev.planeQuery pid ∈ t ∧ env.getPlane pid = some (f, c) ∧
          f ≠ 0 ∧ c ≠ 0) := by
  constructor
  · rw [enumPlanes]
    simp only [hq]
    rw [if_pos hin]
  · intro planes
    induction planes with
    | nil =>
      intro j ok t h f hf
      rw [enumPlanes] at h
      cases h
      simp at hf
    | cons q qs ih =>
      intro j ok t h f hf
      rw [enumPlanes] at h
      cases hqp : env.getPlane q with
      | none => exact absurd h (by simp [hqp])
      | some pr =>
        obtain ⟨fb1, c1⟩ := pr
        simp only [hqp] at h
        by_cases hact : fb1 = 0 ∨ c1 = 0
        · rw [if_pos hact] at h
          cases hrec : enumPlanes env qs (j + 1) with
          | none => rw [hrec] at h; simp at h
          | some r =>
            rw [hrec] at h
            simp only [Option.map_some', Option.some.injEq, Prod.mk.injEq] at h
            obtain ⟨rfl, rfl⟩ := h
            rcases List.mem_cons.mp hf with heq | hf2
            · exact absurd heq (by simp)
            · obtain ⟨pid, c, hmem, hgp, hf0, hc0⟩ :=
                ih (j + 1) r.1 r.2 (by rw [hrec]) f hf2
              exact ⟨pid, c, List.mem_cons_of_mem _ hmem, hgp, hf0, hc0⟩
        · rw [if_neg hact] at h
          push_neg at hact
          obtain ⟨hfb0, hc10⟩ := hact
          cases hfb : env.getFB2 fb1 with
          | none =>
            rw [hfb] at h
            simp only [Option.some.injEq, Prod.mk.injEq] at h
            obtain ⟨rfl, rfl⟩ := h
            have hffb : f = fb1 := by simpa using hf
            subst hffb
            exact ⟨q, c1, by simp, hqp, hfb0, hc10⟩
          | some fbq =>
            simp only [hfb] at h
            by_cases hneg : (save_png env j fbq).1 < 0
            · rw [if_pos hneg] at h
              simp only [Option.some.injEq, Prod.mk.injEq] at h
              obtain ⟨rfl, rfl⟩ := h
              rcases List.mem_cons.mp hf with heq | hf2
              · exact absurd heq (by simp)
              rcases List.mem_cons.mp hf2 with heq | hf3
              · have hffb : f = fb1 := by simpa using heq
                subst hffb
                exact ⟨q, c1, by simp, hqp, hfb0, hc10⟩
              · exact absurd hf3 (save_png_no_fbQuery env j fbq f)
            · rw [if_neg hneg] at h
              cases hrec : enumPlanes env qs (j + 1) with
              | none => rw [hrec] at h; simp at h
              | some r =>
                rw [hrec] at h
                simp only [Option.map_some', Option.some.injEq, Prod.mk.injEq] at h
                obtain ⟨rfl, rfl⟩ := h
                rcases List.mem_cons.mp hf with heq | hf2
                · exact absurd heq (by simp)
                rcases List.mem_cons.mp hf2 with heq | hf3
                · have hffb : f = fb1 := by simpa using heq
                  subst hffb
                  exact ⟨q, c1, by simp, hqp, hfb0, hc10⟩
                · rcases List.mem_append.mp hf3 with hsp | hrem
                  · exact absurd hsp (save_png_no_fbQuery env j fbq f)
                  · obtain ⟨pid, c, hmem, hgp, hf0, hc0⟩ :=
                      ih (j + 1) r.1 r.2 (by rw [hrec]) f hrem
                    refine ⟨pid, c, ?_, hgp, hf0, hc0⟩
                    simp only [List.mem_cons, List.mem_append]
                    right; right; right
                    exact hmem

/-- Closed instance of `C2_map_failure_cleanup_and_abort` at `envMapFail`,
plane 0 of `fbOne`. -/
theorem C2_map_failure_cleanup_and_abort_witness :
    fbOne.handles 0 ≠ 0 ∧ envMapFail.exportOk 0 0 = true ∧
    envMapFail.mmapOk 0 0 = false ∧
    ((∀ ps (ret : Int),
        savePlanes envMapFail 0 fbOne ((0 : Fin 4) :: ps) ret =
          ((savePlanes envMapFail 0 fbOne ps (-(envMapFail.mmapErrno 0 0 : Int))).1,
           Ev.exportTry 0 0 :: Ev.closePrime 0 0 ::
             (savePlanes envMapFail 0 fbOne ps (-(envMapFail.mmapErrno 0 0 : Int))).2)) ∧
     (∀ ps (ret : Int), (∀ q : Fin 4, 0 < envMapFail.mmapErrno 0 q) →
        (savePlanes envMapFail 0 fbOne ((0 : Fin 4) :: ps) ret).1 < 0) ∧
     (∀ id rest fbId crtcId, envMapFail.getPlane id = some (fbId, crtcId) →
        fbId ≠ 0 → crtcId ≠ 0 → envMapFail.getFB2 fbId = some fbOne →
        (save_png envMapFail 0 fbOne).1 < 0 →
        enumPlanes envMapFail (id :: rest) 0 =
          some (false, Ev.planeQuery id :: Ev.fbQuery fbId ::
            (save_png envMapFail 0 fbOne).2))) :=
  ⟨by decide, by decide, by decide,
   C2_map_failure_cleanup_and_abort envMapFail 0 fbOne 0
     (by decide) (by decide) (by decide)⟩

/-- Closed instance of `C3_locator_open_descriptors` at `envSecondCard`. -/
theorem C3_locator_open_descriptors_witness :
    locate envSecondCard 2 0 0 =
      some (.ok 1 2 [Ev.openDev 0 0, Ev.closeFd 0, Ev.openDev 1 1, Ev.openDev 1 2]) ∧
    ((leakedFds [Ev.openDev 0 0, Ev.closeFd 0, Ev.openDev 1 1, Ev.openDev 1 2]).length = 2 ∧
     ∀ c2 fd2,
       Ev.openDev c2 fd2 ∈
         [Ev.openDev 0 0, Ev.closeFd 0, Ev.openDev 1 1, Ev.openDev 1 2] →
       c2 ≠ 1 →
       fd2 ∈ closedFds [Ev.openDev 0 0, Ev.closeFd 0, Ev.openDev 1 1, Ev.openDev 1 2]) :=
  ⟨rfl,
   C3_locator_open_descriptors envSecondCard 2 0 0 1 2
     [Ev.openDev 0 0, Ev.closeFd 0, Ev.openDev 1 1, Ev.openDev 1 2] rfl⟩

/-- Closed instance of `C8_absent_plane_skipped` at `envBase`, memory plane 1
of `fbOne` (whose handle is the absent sentinel 0). -/
theorem C8_absent_plane_skipped_witness :
    fbOne.handles 1 = 0 ∧
    ((∀ ps (ret : Int), savePlanes envBase 0 fbOne ((1 : Fin 4) :: ps) ret =
        savePlanes envBase 0 fbOne ps ret) ∧
     Ev.exportTry 0 1 ∉ (save_png envBase 0 fbOne).2 ∧
     (∀ s, Ev.mapPlane 0 1 s ∉ (save_png envBase 0 fbOne).2) ∧
     (∀ s b, Ev.writePlane 0 1 s b ∉ (save_png envBase 0 fbOne).2)) :=
  ⟨by decide, C8_absent_plane_skipped envBase 0 fbOne 1 (by decide)⟩

/-- Closed instance of `C9_inactive_plane_skipped` at `envInactive`, whose
plane 41 is bound to buffer id 0. -/
theorem C9_inactive_plane_skipped_witness :
    envInactive.getPlane 41 = some (0, 3) ∧ ((0 : Nat) = 0 ∨ (3 : Nat) = 0) ∧
    ((enumPlanes envInactive (41 :: [42]) 0 =
        (enumPlanes envInactive [42] (0 + 1)).map
          (fun r => (r.1, Ev.planeQuery 41 :: r.2))) ∧
     (∀ planes, ∀ j ok t, enumPlanes envInactive planes j = some (ok, t) →
        ∀ f, Ev.fbQuery f ∈ t →
          ∃ pid c, Ev.planeQuery pid ∈ t ∧ envInactive.getPlane pid = some (f, c) ∧
            f ≠ 0 ∧ c ≠ 0)) :=
  ⟨by decide, Or.inl rfl,
   C9_inactive_plane_skipped envInactive 41 [42] 0 0 3 (by decide) (Or.inl rfl)⟩

end Kmsgrab
